import Mathlib

/-!
Shallow embedding of the map page of the camlife repository
(src/app/[locale]/map/page.tsx): the feature builder (geojsonData),
the style resolvers (mapStyle, mapZoom, the circle-radius and
circle-color interpolation expressions), the selection controller
(onClick / popupInfo) and the theme-sync effect, together with
theorems settling the specification claims about them.
-/

namespace Camlife

/-- A coordinate record as delivered by the data layer
(api.photos.getAllCoordinates).  Longitude and latitude are required
non-null by the time they reach the map page (the source applies the
non-null assertions coord.longitude! and coord.latitude!); blurData may
be absent. -/
structure Coord where
  longitude : ℚ
  latitude : ℚ
  url : String
  blurData : Option String
  width : ℕ
  height : ℕ
deriving Repr, DecidableEq

/-- GeoJSON geometry as the click handler distinguishes it: a Point
carrying [longitude, latitude], or any other geometry kind. -/
inductive Geometry where
  | point (longitude latitude : ℚ)
  | other
deriving Repr, DecidableEq

/-- The properties object geojsonData attaches to each feature:
id (the 0-based index), url, blurData, width, height. -/
structure FeatureProps where
  id : ℕ
  url : String
  blurData : Option String
  width : ℕ
  height : ℕ
deriving Repr, DecidableEq

/-- One GeoJSON feature of the built collection. -/
structure Feature where
  geometry : Geometry
  properties : FeatureProps
deriving Repr, DecidableEq

/-- The FeatureCollection produced by geojsonData. -/
structure FeatureCollection where
  features : List Feature
deriving Repr, DecidableEq

/-- The single feature built from coordinate record c at index i, as in
the arrow function passed to coordinates.map in geojsonData. -/
def featureOf (i : ℕ) (c : Coord) : Feature :=
  { geometry := Geometry.point c.longitude c.latitude
    properties :=
      { id := i
        url := c.url
        blurData := c.blurData
        width := c.width
        height := c.height } }

/-- JavaScript Array.prototype.map with the index argument, as used in
coordinates.map((coord, index) => ...), starting from index i. -/
def mapIdx (i : ℕ) : List Coord → List Feature
  | [] => []
  | c :: cs => featureOf i c :: mapIdx (i + 1) cs

/-- geojsonData: if coordinates is not yet available (undefined) the
result is null; otherwise a FeatureCollection whose features are the
records mapped in order with their 0-based index as id. -/
def geojsonData (coordinates : Option (List Coord)) : Option FeatureCollection :=
  match coordinates with
  | none => none
  | some cs => some ⟨mapIdx 0 cs⟩

/-- The light map style identifier (styles.light). -/
def lightStyleId : String := "mapbox://styles/mapbox/light-v11"

/-- The dark map style identifier (styles.dark). -/
def darkStyleId : String := "mapbox://styles/mapbox/dark-v11"

/-- The styles record of the mapStyle memo, as a key/value list. -/
def styles : List (String × String) :=
  [("light", lightStyleId), ("dark", darkStyleId)]

/-- mapStyle: looks resolvedTheme up in the styles record
(styles[resolvedTheme as keyof typeof styles]) and falls back to
styles.light when the lookup is undefined (the || styles.light). -/
def mapStyle (resolvedTheme : Option String) : String :=
  match resolvedTheme.bind (fun t => (styles.find? (fun p => p.1 == t)).map Prod.snd) with
  | some s => s
  | none => lightStyleId

/-- mapZoom: isMobile ? 1 : 2. -/
def mapZoom (isMobile : Bool) : ℕ :=
  if isMobile then 1 else 2

/-- An RGB color with rational channels, for the "interpolate" paint
expressions over colors. -/
structure Color where
  r : ℚ
  g : ℚ
  b : ℚ
deriving Repr, DecidableEq

/-- Channelwise linear mix of two colors at parameter t. -/
def lerpColor (t : ℚ) (c0 c1 : Color) : Color :=
  ⟨c0.r + t * (c1.r - c0.r), c0.g + t * (c1.g - c0.g), c0.b + t * (c1.b - c0.b)⟩

/-- The Mapbox two-stop ["interpolate", ["linear"], input, z0, r0, z1, r1]
expression on numbers: the output is clamped to the first stop below z0
and to the last stop above z1, and linear in between. -/
def interpolateLinear (z0 r0 z1 r1 z : ℚ) : ℚ :=
  if z ≤ z0 then r0
  else if z1 ≤ z then r1
  else r0 + (z - z0) / (z1 - z0) * (r1 - r0)

/-- The Mapbox two-stop ["interpolate", ["linear"], input, z0, c0, z1, c1]
expression on colors: clamped at the stops, channelwise linear between. -/
def interpolateLinearColor (z0 : ℚ) (c0 : Color) (z1 : ℚ) (c1 : Color) (z : ℚ) : Color :=
  if z ≤ z0 then c0
  else if z1 ≤ z then c1
  else lerpColor ((z - z0) / (z1 - z0)) c0 c1

/-- circle-radius of the point-hitbox layer:
["interpolate", ["linear"], ["zoom"], 0, 10, 22, 30]. -/
def hitboxRadius (zoom : ℚ) : ℚ :=
  interpolateLinear 0 10 22 30 zoom

/-- circle-radius of the point-glow layer:
["interpolate", ["linear"], ["zoom"], 0, 5, 22, 20]. -/
def glowRadius (zoom : ℚ) : ℚ :=
  interpolateLinear 0 5 22 20 zoom

/-- circle-radius of the point layer:
["interpolate", ["linear"], ["zoom"], 0, 3, 22, 12]. -/
def pointRadius (zoom : ℚ) : ℚ :=
  interpolateLinear 0 3 22 12 zoom

/-- The upper stop input of the two circle-color ramps: the expression
coordinates?.length ?? 1.  The ?? fallback fires only when coordinates
is undefined; a defined empty list yields 0. -/
def colorRampDomainMax (coordinates : Option (List Coord)) : ℕ :=
  match coordinates with
  | some cs => cs.length
  | none => 1

/-- Start color of the glow ramp, #FF9900. -/
def glowStartColor : Color := ⟨255, 153, 0⟩

/-- End color of the glow ramp, #00FFFF. -/
def glowEndColor : Color := ⟨0, 255, 255⟩

/-- Start color of the point ramp, #FF6600. -/
def pointStartColor : Color := ⟨255, 102, 0⟩

/-- End color of the point ramp, #00CCFF. -/
def pointEndColor : Color := ⟨0, 204, 255⟩

/-- circle-color of the point-glow layer: ["interpolate", ["linear"],
["get", "id"], 0, #FF9900, coordinates?.length ?? 1, #00FFFF]. -/
def glowRampColor (coordinates : Option (List Coord)) (id : ℚ) : Color :=
  interpolateLinearColor 0 glowStartColor (colorRampDomainMax coordinates) glowEndColor id

/-- circle-color of the point layer: ["interpolate", ["linear"],
["get", "id"], 0, #FF6600, coordinates?.length ?? 1, #00CCFF]. -/
def pointRampColor (coordinates : Option (List Coord)) (id : ℚ) : Color :=
  interpolateLinearColor 0 pointStartColor (colorRampDomainMax coordinates) pointEndColor id

/-- The popup payload stored in the popupInfo state. -/
structure PopupInfo where
  longitude : ℚ
  latitude : ℚ
  url : String
  blurData : Option String
  width : ℕ
  height : ℕ
deriving Repr, DecidableEq

/-- The onClick handler as a transition on the selection state: from the
hit result event.features it takes the first feature (event.features?.[0]);
if one exists and its geometry is a Point, the new popupInfo carries that
feature's coordinates and properties, otherwise the new popupInfo is null.
The previous selection state is not consulted. -/
def onClick (features : Option (List Feature)) : Option PopupInfo :=
  match features.bind List.head? with
  | some f =>
    match f.geometry with
    | Geometry.point lon lat =>
      some ⟨lon, lat, f.properties.url, f.properties.blurData,
            f.properties.width, f.properties.height⟩
    | Geometry.other => none
  | none => none

/-- The Image element rendered inside the popup, with the props the
source passes: src, blurDataURL (popupInfo.blurData ?? ""), width,
height. -/
structure PopupImage where
  src : String
  blurDataURL : String
  width : ℕ
  height : ℕ
deriving Repr, DecidableEq

/-- A rendered popup: anchored at the selected longitude/latitude and
holding the Image built from the selected attributes. -/
structure RenderedPopup where
  longitude : ℚ
  latitude : ℚ
  image : PopupImage
deriving Repr, DecidableEq

/-- blurDataURL passed to the Image: popupInfo.blurData ?? "". -/
def popupBlurDataURL (info : PopupInfo) : String :=
  info.blurData.getD ""

/-- The popup built from one popupInfo value, as the JSX renders it. -/
def popupOf (info : PopupInfo) : RenderedPopup :=
  { longitude := info.longitude
    latitude := info.latitude
    image :=
      { src := info.url
        blurDataURL := popupBlurDataURL info
        width := info.width
        height := info.height } }

/-- The popups rendered for a selection state: the JSX guard
popupInfo && <Popup .../> yields one popup when popupInfo is set and
none otherwise. -/
def renderedPopups (popupInfo : Option PopupInfo) : List RenderedPopup :=
  match popupInfo with
  | none => []
  | some info => [popupOf info]

/-- The two CSS presentation variables the theme-sync effect overrides
on document.documentElement. -/
structure RootStyle where
  background : String
  foreground : String
deriving Repr, DecidableEq

/-- The overridden values the effect writes: the dark pair when
resolvedTheme is "dark", the light pair otherwise. -/
def themeOverride (resolvedTheme : Option String) : RootStyle :=
  if resolvedTheme = some "dark" then ⟨"#333333", "#f0f0f0"⟩
  else ⟨"#f5f5f5", "#333333"⟩

/-- The theme-sync useEffect: reads the current values of --background
and --foreground into originalBackground/originalForeground, writes the
theme-specific pair, and returns the cleanup, which writes the recorded
originals back whatever the state is at cleanup time. -/
def themeEffect (resolvedTheme : Option String) (root : RootStyle) :
    RootStyle × (RootStyle → RootStyle) :=
  let originalBackground := root.background
  let originalForeground := root.foreground
  (themeOverride resolvedTheme, fun _ => ⟨originalBackground, originalForeground⟩)

/-- Opaque handle to the mounted map instance a React callback ref
receives. -/
structure MapRef where
  surfaceId : ℕ
deriving Repr, DecidableEq

/-- The mapRef callback: on one invocation it attaches the
MapboxLanguage control exactly when the ref is non-null and the locale
is "zh".  Returns whether an attachment happened on this invocation. -/
def mapRefCallback (locale : String) (ref : Option MapRef) : Bool :=
  match ref with
  | some _ => locale == "zh"
  | none => false

/-- Modelled from React callback-ref semantics (not code under src/):
for one map-surface instantiation with a fixed locale, React invokes the
callback once with the mounted instance and once with null at teardown. -/
def surfaceInvocations (ref : MapRef) : List (Option MapRef) :=
  [some ref, none]

/-- Number of times the language control gets attached over one
map-surface instantiation. -/
def attachCount (locale : String) (ref : MapRef) : ℕ :=
  ((surfaceInvocations ref).filter (fun r => mapRefCallback locale r)).length

/-- The two-record dataset of the specification scenario:
lon 116.38 / lat 39.9 / a.jpg / 100x200 and lon 121.47 / lat 31.23 /
b.jpg / 50x50. -/
def scenarioCoords : List Coord :=
  [⟨11638/100, 399/10, "a.jpg", none, 100, 200⟩,
   ⟨12147/100, 3123/100, "b.jpg", none, 50, 50⟩]

theorem mapIdx_length (i : ℕ) (cs : List Coord) :
    (mapIdx i cs).length = cs.length := by
  induction cs generalizing i with
  | nil => rfl
  | cons c cs ih => simp [mapIdx, ih]

theorem mapIdx_getElem? (i j : ℕ) (cs : List Coord) (h : j < cs.length) :
    (mapIdx i cs)[j]? = some (featureOf (i + j) (cs.get ⟨j, h⟩)) := by
  induction cs generalizing i j with
  | nil => cases h
  | cons c cs ih =>
    cases j with
    | zero => simp [mapIdx]
    | succ j =>
      have hj : j < cs.length := Nat.lt_of_succ_lt_succ h
      have := ih (i + 1) j hj
      simp only [mapIdx, List.getElem?_cons_succ, this]
      have harg : i + 1 + j = i + (j + 1) := by omega
      rw [harg]
      rfl

/-- C3: the feature builder maps a null/not-yet-available input to null;
for any ordered sequence of records it returns a collection of the same
length, in input order (feature j is built from record j), with every
feature's id equal to its 0-based position. -/
theorem geojsonData_build_spec :
    geojsonData none = none ∧
    ∀ (cs : List Coord), ∃ fc, geojsonData (some cs) = some fc ∧
      fc.features.length = cs.length ∧
      ∀ (j : ℕ) (h : j < cs.length),
        fc.features[j]? = some (featureOf j (cs.get ⟨j, h⟩)) ∧
        (featureOf j (cs.get ⟨j, h⟩)).properties.id = j := by
  refine ⟨rfl, fun cs => ⟨⟨mapIdx 0 cs⟩, rfl, mapIdx_length 0 cs, fun j h => ⟨?_, rfl⟩⟩⟩
  have := mapIdx_getElem? 0 j cs h
  simpa using this

/-- C3 witness: on the concrete scenario dataset, the builder yields a
collection of length 2 whose first feature is built from the first
record with id 0. -/
theorem geojsonData_build_spec_witness :
    ∃ fc, geojsonData (some scenarioCoords) = some fc ∧
      fc.features.length = scenarioCoords.length ∧
      fc.features[0]? = some (featureOf 0 (scenarioCoords.get ⟨0, by decide⟩)) := by
  obtain ⟨fc, h1, h2, h3⟩ := geojsonData_build_spec.2 scenarioCoords
  exact ⟨fc, h1, h2, (h3 0 (by decide)).1⟩

/-- C7: map style resolution is total: the dark theme resolves to the
dark style identifier and every other input, including an undefined
theme, resolves to the light style identifier. -/
theorem mapStyle_total :
    mapStyle (some "dark") = darkStyleId ∧
    ∀ t : Option String, t ≠ some "dark" → mapStyle t = lightStyleId := by
  refine ⟨rfl, fun t ht => ?_⟩
  match t with
  | none => rfl
  | some s =>
    have hd : ¬ ("dark" == s) = true := by
      simp only [beq_iff_eq]
      intro h
      exact ht (by rw [h])
    by_cases h1 : s = "light"
    · subst h1; rfl
    · have hl : ¬ ("light" == s) = true := by
        simp only [beq_iff_eq]
        intro h
        exact h1 h.symm
      simp [mapStyle, styles, List.find?, hl, hd]

/-- C7 witness: the dark theme and the undefined theme at concrete
inputs. -/
theorem mapStyle_total_witness :
    mapStyle (some "dark") = darkStyleId ∧ mapStyle none = lightStyleId :=
  ⟨mapStyle_total.1, mapStyle_total.2 none (by simp)⟩

/-- C8: the initial zoom for the mobile viewport class is strictly less
than the initial zoom for the desktop viewport class. -/
theorem mapZoom_mobile_lt_desktop : mapZoom true < mapZoom false := by
  decide

/-- C5: the theme-sync effect is a scoped round trip: it records the
prior values of the two presentation variables and its cleanup restores
exactly those recorded values, whatever theme was applied and whatever
the variables hold at cleanup time, never a hardcoded default. -/
theorem themeEffect_roundTrip :
    ∀ (theme : Option String) (root later : RootStyle),
      (themeEffect theme root).1 = themeOverride theme ∧
      (themeEffect theme root).2 later = root := by
  intro theme root later
  exact ⟨rfl, rfl⟩

/-- C9: over one map-surface instantiation the language control is
attached exactly once when the locale is "zh" and never otherwise. -/
theorem languageControl_attach_count :
    ∀ (locale : String) (ref : MapRef),
      attachCount locale ref = if locale = "zh" then 1 else 0 := by
  intro locale ref
  by_cases h : locale = "zh"
  · subst h; rfl
  · have hb : (locale == "zh") = false := beq_eq_false_iff_ne.mpr h
    simp [attachCount, surfaceInvocations, mapRefCallback, List.filter, h, hb]

/-- C10: the blur placeholder passed to the popup image is the recorded
value when present and the empty string when the recorded value is
missing. -/
theorem popupBlur_fallback :
    ∀ (info : PopupInfo),
      (∀ s, info.blurData = some s → popupBlurDataURL info = s) ∧
      (info.blurData = none → popupBlurDataURL info = "") := by
  intro info
  constructor
  · intro s hs
    simp [popupBlurDataURL, hs]
  · intro hs
    simp [popupBlurDataURL, hs]

/-- C10 witness: both the missing and the present blur placeholder at
concrete popup payloads. -/
theorem popupBlur_fallback_witness :
    popupBlurDataURL ⟨0, 0, "a.jpg", none, 100, 200⟩ = "" ∧
    popupBlurDataURL ⟨0, 0, "a.jpg", some "blurred", 100, 200⟩ = "blurred" :=
  ⟨(popupBlur_fallback ⟨0, 0, "a.jpg", none, 100, 200⟩).2 rfl,
   (popupBlur_fallback ⟨0, 0, "a.jpg", some "blurred", 100, 200⟩).1 "blurred" rfl⟩

/-- C1: at the failing input of an empty (but defined) dataset the color
ramp domain upper bound evaluates to 0, not the 1 the specification
guard promises, so the interpolation domain is the degenerate [0,0]
rather than [0,1]; the ?? 1 fallback fires only when the dataset is
undefined. -/
theorem colorRampDomainMax_empty_dataset :
    colorRampDomainMax (some ([] : List Coord)) = 0 ∧
    colorRampDomainMax (some ([] : List Coord)) ≠ 1 ∧
    colorRampDomainMax none = 1 := by
  exact ⟨rfl, by decide, rfl⟩

theorem hitboxRadius_mono (z w : ℚ) (hzw : z ≤ w) :
    hitboxRadius z ≤ hitboxRadius w := by
  unfold hitboxRadius interpolateLinear
  split_ifs <;> linarith

theorem glowRadius_mono (z w : ℚ) (hzw : z ≤ w) :
    glowRadius z ≤ glowRadius w := by
  unfold glowRadius interpolateLinear
  split_ifs <;> linarith

theorem pointRadius_mono (z w : ℚ) (hzw : z ≤ w) :
    pointRadius z ≤ pointRadius w := by
  unfold pointRadius interpolateLinear
  split_ifs <;> linarith

theorem glow_lt_hitbox (z : ℚ) : glowRadius z < hitboxRadius z := by
  unfold glowRadius hitboxRadius interpolateLinear
  split_ifs <;> linarith

theorem point_lt_hitbox (z : ℚ) : pointRadius z < hitboxRadius z := by
  unfold pointRadius hitboxRadius interpolateLinear
  split_ifs <;> linarith

/-- C6: over the interpolation domain [0, 22] of all three circle
layers, each circle radius is monotonically non-decreasing in zoom, and
the invisible hit-target radius is strictly the largest of the three at
every zoom level. -/
theorem layerRadii_mono_hitbox_largest :
    (∀ z w : ℚ, 0 ≤ z → z ≤ w → w ≤ 22 →
        hitboxRadius z ≤ hitboxRadius w ∧
        glowRadius z ≤ glowRadius w ∧
        pointRadius z ≤ pointRadius w) ∧
    (∀ z : ℚ, 0 ≤ z → z ≤ 22 →
        glowRadius z < hitboxRadius z ∧ pointRadius z < hitboxRadius z) :=
  ⟨fun z w _ hzw _ =>
    ⟨hitboxRadius_mono z w hzw, glowRadius_mono z w hzw, pointRadius_mono z w hzw⟩,
   fun z _ _ => ⟨glow_lt_hitbox z, point_lt_hitbox z⟩⟩

/-- C6 witness: the monotonicity comparison at zoom levels 0 and 22 and
the strict ordering at zoom level 5. -/
theorem layerRadii_mono_hitbox_largest_witness :
    (hitboxRadius 0 ≤ hitboxRadius 22 ∧
     glowRadius 0 ≤ glowRadius 22 ∧
     pointRadius 0 ≤ pointRadius 22) ∧
    (glowRadius 5 < hitboxRadius 5 ∧ pointRadius 5 < hitboxRadius 5) :=
  ⟨layerRadii_mono_hitbox_largest.1 0 22 (by norm_num) (by norm_num) (by norm_num),
   layerRadii_mono_hitbox_largest.2 5 (by norm_num) (by norm_num)⟩

/-- C2 counterexample: on the scenario dataset the ramp domain upper
bound is the dataset size 2, so feature 1 with id 1 sits halfway along
the domain and its point and glow ramp colors differ from the configured
end colors. -/
theorem scenario_feature1_not_end_color :
    colorRampDomainMax (some scenarioCoords) = 2 ∧
    pointRampColor (some scenarioCoords) 1 ≠ pointEndColor ∧
    glowRampColor (some scenarioCoords) 1 ≠ glowEndColor := by
  refine ⟨rfl, ?_, ?_⟩ <;>
    norm_num [pointRampColor, glowRampColor, interpolateLinearColor,
      colorRampDomainMax, scenarioCoords, lerpColor, pointStartColor,
      pointEndColor, glowStartColor, glowEndColor, Color.mk.injEq]

/-- C2 amended: the collection built from the scenario dataset has
exactly 2 features with ids 0 and 1; feature 0's glow and point ramp
colors are the ramps' start colors, and feature 1's are the equal mixes
of start and end colors, because the domain is [0, 2] and index 1 sits
halfway along it (an index never reaches the domain maximum, which is
the dataset size, one past the largest index). -/
theorem scenario_two_features_colors :
    ∃ fc, geojsonData (some scenarioCoords) = some fc ∧
      fc.features.length = 2 ∧
      fc.features.map (fun f => f.properties.id) = [0, 1] ∧
      pointRampColor (some scenarioCoords) 0 = pointStartColor ∧
      glowRampColor (some scenarioCoords) 0 = glowStartColor ∧
      pointRampColor (some scenarioCoords) 1 =
        lerpColor (1/2) pointStartColor pointEndColor ∧
      glowRampColor (some scenarioCoords) 1 =
        lerpColor (1/2) glowStartColor glowEndColor := by
  refine ⟨⟨mapIdx 0 scenarioCoords⟩, rfl, by decide, by decide, ?_, ?_, ?_, ?_⟩ <;>
    norm_num [pointRampColor, glowRampColor, interpolateLinearColor,
      colorRampDomainMax, scenarioCoords, lerpColor, pointStartColor,
      pointEndColor, glowStartColor, glowEndColor, Color.mk.injEq]

/-- C4: on a map click, if the topmost hit feature exists and its
geometry is a Point, the selection becomes exactly that feature's
longitude, latitude, url, blur placeholder, width and height; if no
feature is hit or the geometry is not a Point the selection becomes
empty; and the render of any selection state shows at most one popup,
always built from the currently selected attributes. -/
theorem onClick_selection :
    ∀ (fs : Option (List Feature)),
      (∀ f lon lat, fs.bind List.head? = some f →
        f.geometry = Geometry.point lon lat →
        onClick fs = some ⟨lon, lat, f.properties.url, f.properties.blurData,
                           f.properties.width, f.properties.height⟩) ∧
      (∀ f, fs.bind List.head? = some f → f.geometry = Geometry.other →
        onClick fs = none) ∧
      (fs.bind List.head? = none → onClick fs = none) ∧
      (renderedPopups (onClick fs)).length ≤ 1 ∧
      (∀ p, p ∈ renderedPopups (onClick fs) →
        ∃ info, onClick fs = some info ∧ p = popupOf info) := by
  intro fs
  refine ⟨?_, ?_, ?_, ?_, ?_⟩
  · intro f lon lat hf hg
    simp [onClick, hf, hg]
  · intro f hf hg
    simp [onClick, hf, hg]
  · intro hf
    simp [onClick, hf]
  · cases h : onClick fs <;> simp [renderedPopups, h]
  · intro p hp
    cases h : onClick fs with
    | none => simp [renderedPopups, h] at hp
    | some info =>
      refine ⟨info, rfl, ?_⟩
      simpa [renderedPopups, h] using hp

/-- C4 witness: clicking a concrete point feature selects exactly its
attributes, and clicking with no hit clears the selection. -/
theorem onClick_selection_witness :
    onClick (some [⟨Geometry.point 1 2, ⟨0, "a.jpg", none, 10, 20⟩⟩]) =
      some ⟨1, 2, "a.jpg", none, 10, 20⟩ ∧
    onClick none = none :=
  ⟨(onClick_selection (some [⟨Geometry.point 1 2, ⟨0, "a.jpg", none, 10, 20⟩⟩])).1
      ⟨Geometry.point 1 2, ⟨0, "a.jpg", none, 10, 20⟩⟩ 1 2 rfl rfl,
   (onClick_selection none).2.2.1 rfl⟩

end Camlife
